import Mathlib

/-!
Verification of the payroll computation engine of the
BusinessFinanceManagementSystem repository.

The embedded code is `calculateTax` and `onPayrollSubmit` from
`src/pages/PayrollPage.tsx`, together with the surrounding data model
(`TaxRule`, `Employee`, payroll form values and `payroll_records` rows,
as declared in the page types and the database migration).  JavaScript
numbers are modelled as rationals (ℚ); all arithmetic appearing in the
code (`* 1.5`, `/ 100`, additions and subtractions) is exact on ℚ.
`null`-able columns are modelled as `Option ℚ`, and the JavaScript
truthiness coercions the code applies to them (`rule.threshold_max ||
Infinity`, `if (employee.hourly_rate)`) are made explicit by `jsNonzero`,
which sends both `null` and `0` to `none`.
-/

/-- A row of the `tax_rules` table as consumed by `calculateTax`:
`rate DECIMAL(5,4)`, `threshold_min DECIMAL(15,2) DEFAULT 0` (nullable),
`threshold_max DECIMAL(15,2)` (nullable), `is_active BOOLEAN`. -/
structure TaxRule where
  rate : ℚ
  threshold_min : Option ℚ
  threshold_max : Option ℚ
  is_active : Bool
deriving DecidableEq, Repr

/-- JavaScript truthiness on a nullable number: `null` and `0` are falsy.
`jsNonzero x = none` exactly when the source coercion (`x || Infinity`
for an upper bound, `if (x)` for the hourly rate) takes the falsy branch. -/
def jsNonzero (x : Option ℚ) : Option ℚ :=
  match x with
  | none => none
  | some v => if v = 0 then none else some v

/-- The contribution of one rule inside the loop of `calculateTax`
(PayrollPage.tsx lines 207-214):
`const min = rule.threshold_min || 0; const max = rule.threshold_max || Infinity;`
`if (grossSalary > min) { totalTax += (Math.min(grossSalary, max) - min) * (rule.rate / 100); }`.
`max = Infinity` is represented by `jsNonzero rule.threshold_max = none`,
in which case `Math.min(grossSalary, Infinity) = grossSalary`. -/
def bracketTax (grossSalary : ℚ) (rule : TaxRule) : ℚ :=
  let mn := rule.threshold_min.getD 0
  if mn < grossSalary then
    ((match jsNonzero rule.threshold_max with
      | none => grossSalary
      | some mx => min grossSalary mx) - mn) * (rule.rate / 100)
  else 0

/-- The function `calculateTax` (PayrollPage.tsx lines 204-218): fold the loop body
over the rule list, starting from `totalTax = 0`. -/
def calculateTax (grossSalary : ℚ) (taxRules : List TaxRule) : ℚ :=
  taxRules.foldl (fun totalTax rule => totalTax + bracketTax grossSalary rule) 0

/-- The query `fetchTaxRules` (PayrollPage.tsx lines 190-195) loads the rule list the
page stores in the `taxRules` state: the query filters `is_active = true`,
so `calculateTax` only ever runs over the active rules. -/
def fetchTaxRules (allRules : List TaxRule) : List TaxRule :=
  allRules.filter (fun r => r.is_active)

/-- A row of the `employees` table as consumed by `onPayrollSubmit`:
`base_salary DECIMAL(15,2) NOT NULL`, `hourly_rate DECIMAL(10,2)`
(nullable), `is_active BOOLEAN`. -/
structure Employee where
  id : String
  base_salary : ℚ
  hourly_rate : Option ℚ
  is_active : Bool
deriving DecidableEq, Repr

/-- The submitted payroll form after the `parseFloat` calls at the top of
`onPayrollSubmit` (missing optional fields already defaulted to 0). -/
structure PayrollInput where
  employee_id : String
  pay_period_start : String
  pay_period_end : String
  hours_worked : ℚ
  overtime_hours : ℚ
  allowances : ℚ
  deductions : ℚ
deriving DecidableEq, Repr

/-- The `payroll_records` row built by `onPayrollSubmit` (the `created_by`
audit column is omitted: it is the session user, not part of the
computation). -/
structure PayrollRecord where
  employee_id : String
  pay_period_start : String
  pay_period_end : String
  hours_worked : ℚ
  overtime_hours : ℚ
  gross_salary : ℚ
  tax_deductions : ℚ
  deductions : ℚ
  allowances : ℚ
  net_salary : ℚ
deriving DecidableEq, Repr

/-- The raw string form values checked by `payrollSchema`
(PayrollPage.tsx lines 32-40) before any parsing happens. -/
structure PayrollFormValues where
  employee_id : String
  pay_period_start : String
  pay_period_end : String
  hours_worked : String
  overtime_hours : Option String
  allowances : Option String
  deductions : Option String
deriving DecidableEq, Repr

/-- The form schema `payrollSchema`: every required field is a `z.string().min(1, ...)`,
i.e. a non-empty string; `overtime_hours`, `allowances` and `deductions`
are `optional()` and unconstrained.  No numeric bound is checked. -/
def payrollSchemaAccepts (v : PayrollFormValues) : Bool :=
  (1 ≤ v.employee_id.length) && (1 ≤ v.pay_period_start.length) &&
  (1 ≤ v.pay_period_end.length) && (1 ≤ v.hours_worked.length)

/-- The handler `onPayrollSubmit` (PayrollPage.tsx lines 267-326), after the form
values are parsed: look the employee up in the loaded list (missing
employee returns without inserting anything); branch on the truthiness of
`employee.hourly_rate` for the gross-salary basis; add allowances; compute
tax on the allowance-inclusive gross; net = gross - tax - deductions;
insert the record.  `some record` models a successful insert, `none` the
early `return`. -/
def onPayrollSubmit (employees : List Employee) (taxRules : List TaxRule)
    (values : PayrollInput) : Option PayrollRecord :=
  match employees.find? (fun e => e.id == values.employee_id) with
  | none => none
  | some employee =>
    let grossSalary :=
      (match jsNonzero employee.hourly_rate with
       | some rate => values.hours_worked * rate + values.overtime_hours * rate * 1.5
       | none => employee.base_salary) + values.allowances
    let taxDeductions := calculateTax grossSalary taxRules
    let netSalary := grossSalary - taxDeductions - values.deductions
    some
      { employee_id := values.employee_id
        pay_period_start := values.pay_period_start
        pay_period_end := values.pay_period_end
        hours_worked := values.hours_worked
        overtime_hours := values.overtime_hours
        gross_salary := grossSalary
        tax_deductions := taxDeductions
        deductions := values.deductions
        allowances := values.allowances
        net_salary := netSalary }

/-- The gross salary `onPayrollSubmit` computes for a found employee
(hourly basis when `employee.hourly_rate` is truthy, salaried basis
otherwise, allowances added in either case). -/
def grossFor (employee : Employee) (values : PayrollInput) : ℚ :=
  (match jsNonzero employee.hourly_rate with
   | some rate => values.hours_worked * rate + values.overtime_hours * rate * 1.5
   | none => employee.base_salary) + values.allowances

/-- A rule is well formed when its rate is non-negative and, whenever its
upper bound actually applies (non-null, non-zero `threshold_max`), that
bound is at least the lower threshold. -/
def wellFormedRule (r : TaxRule) : Bool :=
  decide (0 ≤ r.rate) &&
  (match jsNonzero r.threshold_max with
   | none => true
   | some mx => decide (r.threshold_min.getD 0 ≤ mx))

lemma calculateTax_go (g : ℚ) (rs : List TaxRule) :
    ∀ a : ℚ, rs.foldl (fun t r => t + bracketTax g r) a
      = a + (rs.map (bracketTax g)).sum := by
  induction rs with
  | nil => intro a; simp
  | cons r rs ih =>
    intro a
    simp only [List.foldl_cons, List.map_cons, List.sum_cons, ih, add_assoc]

lemma calculateTax_eq_sum (g : ℚ) (rs : List TaxRule) :
    calculateTax g rs = (rs.map (bracketTax g)).sum := by
  simpa using calculateTax_go g rs 0

lemma bracketTax_pos_eq (g : ℚ) (r : TaxRule) (h : r.threshold_min.getD 0 < g) :
    bracketTax g r =
      ((match jsNonzero r.threshold_max with
        | none => g
        | some mx => min g mx) - r.threshold_min.getD 0) * (r.rate / 100) := by
  unfold bracketTax
  rw [if_pos h]

lemma bracketTax_neg_eq (g : ℚ) (r : TaxRule) (h : ¬ r.threshold_min.getD 0 < g) :
    bracketTax g r = 0 := by
  unfold bracketTax
  rw [if_neg h]

lemma wellFormedRule_iff (r : TaxRule) :
    wellFormedRule r = true ↔
      0 ≤ r.rate ∧
        ∀ mx, jsNonzero r.threshold_max = some mx → r.threshold_min.getD 0 ≤ mx := by
  unfold wellFormedRule
  cases hj : jsNonzero r.threshold_max with
  | none => simp [hj]
  | some mx => simp [hj]

lemma bracketTax_nonneg (g : ℚ) (r : TaxRule)
    (hrate : 0 ≤ r.rate)
    (hmx : ∀ mx, jsNonzero r.threshold_max = some mx → r.threshold_min.getD 0 ≤ mx) :
    0 ≤ bracketTax g r := by
  by_cases h : r.threshold_min.getD 0 < g
  · rw [bracketTax_pos_eq g r h]
    apply mul_nonneg _ (div_nonneg hrate (by norm_num))
    cases hj : jsNonzero r.threshold_max with
    | none =>
      simp only [hj]
      linarith
    | some mx =>
      simp only [hj]
      have hmn := hmx mx hj
      have hle : r.threshold_min.getD 0 ≤ min g mx := le_min (le_of_lt h) hmn
      linarith
  · rw [bracketTax_neg_eq g r h]

lemma bracketTax_mono (g1 g2 : ℚ) (r : TaxRule)
    (hrate : 0 ≤ r.rate)
    (hmx : ∀ mx, jsNonzero r.threshold_max = some mx → r.threshold_min.getD 0 ≤ mx)
    (h12 : g1 ≤ g2) :
    bracketTax g1 r ≤ bracketTax g2 r := by
  by_cases h1 : r.threshold_min.getD 0 < g1
  · have h2 : r.threshold_min.getD 0 < g2 := lt_of_lt_of_le h1 h12
    rw [bracketTax_pos_eq g1 r h1, bracketTax_pos_eq g2 r h2]
    apply mul_le_mul_of_nonneg_right _ (div_nonneg hrate (by norm_num))
    apply sub_le_sub_right
    cases hj : jsNonzero r.threshold_max with
    | none => simp only [hj]; exact h12
    | some mx => simp only [hj]; exact min_le_min h12 le_rfl
  · rw [bracketTax_neg_eq g1 r h1]
    exact bracketTax_nonneg g2 r hrate hmx

lemma calculateTax_nonneg (g : ℚ) (rules : List TaxRule)
    (hwf : ∀ r ∈ rules, wellFormedRule r = true) :
    0 ≤ calculateTax g rules := by
  rw [calculateTax_eq_sum]
  apply List.sum_nonneg
  intro x hx
  obtain ⟨r, hr, rfl⟩ := List.mem_map.1 hx
  obtain ⟨h1, h2⟩ := (wellFormedRule_iff r).1 (hwf r hr)
  exact bracketTax_nonneg g r h1 h2

lemma calculateTax_mono (g1 g2 : ℚ) (rules : List TaxRule)
    (hwf : ∀ r ∈ rules, wellFormedRule r = true)
    (h12 : g1 ≤ g2) :
    calculateTax g1 rules ≤ calculateTax g2 rules := by
  rw [calculateTax_eq_sum, calculateTax_eq_sum]
  apply List.sum_le_sum
  intro r hr
  obtain ⟨h1, h2⟩ := (wellFormedRule_iff r).1 (hwf r hr)
  exact bracketTax_mono g1 g2 r h1 h2 h12

lemma onPayrollSubmit_found (employees : List Employee) (rules : List TaxRule)
    (v : PayrollInput) (e : Employee)
    (hfind : employees.find? (fun x => x.id == v.employee_id) = some e) :
    onPayrollSubmit employees rules v =
      some
        { employee_id := v.employee_id
          pay_period_start := v.pay_period_start
          pay_period_end := v.pay_period_end
          hours_worked := v.hours_worked
          overtime_hours := v.overtime_hours
          gross_salary := grossFor e v
          tax_deductions := calculateTax (grossFor e v) rules
          deductions := v.deductions
          allowances := v.allowances
          net_salary := grossFor e v - calculateTax (grossFor e v) rules - v.deductions } := by
  simp only [onPayrollSubmit, hfind, grossFor]

lemma onPayrollSubmit_not_found (employees : List Employee) (rules : List TaxRule)
    (v : PayrollInput)
    (hfind : employees.find? (fun x => x.id == v.employee_id) = none) :
    onPayrollSubmit employees rules v = none := by
  simp only [onPayrollSubmit, hfind]

lemma grossFor_hourly (e : Employee) (v : PayrollInput) (hr : ℚ)
    (hhr : e.hourly_rate = some hr) (hne : hr ≠ 0) :
    grossFor e v = v.hours_worked * hr + v.overtime_hours * hr * 1.5 + v.allowances := by
  simp [grossFor, jsNonzero, hhr, hne]

lemma grossFor_salaried (e : Employee) (v : PayrollInput)
    (h : jsNonzero e.hourly_rate = none) :
    grossFor e v = e.base_salary + v.allowances := by
  simp [grossFor, h]

/-- C1: the claim states that `compute_tax` multiplies each bracket's
taxable amount by the rule's `rate` taken as a fraction (0.18 for 18%),
and that the two-bracket set `{rate=0.10, min=0, max=1000},
{rate=0.20, min=1000, max=null}` taxes `gross=1500` at 200.  The code
instead multiplies by `rule.rate / 100`, although the `tax_rules` schema
stores `rate DECIMAL(5,4)` (a fraction, incapable of holding a percentage
such as 18): on the claim's own example the code returns 2, not 200. -/
theorem C1_p2_example_yields_2_not_200 :
    calculateTax 1500
      [TaxRule.mk 0.10 (some 0) (some 1000) true,
       TaxRule.mk 0.20 (some 1000) none true] = 2 ∧
    calculateTax 1500
      [TaxRule.mk 0.10 (some 0) (some 1000) true,
       TaxRule.mk 0.20 (some 1000) none true] ≠ 200 := by
  constructor <;> norm_num [calculateTax, bracketTax, jsNonzero, min_def]

/-- C5 counterexample: `calculateTax` is not non-negative for every rule
list.  A rule whose upper bound lies below its lower threshold (here
`min=100`, `max=50`, `rate=2`) contributes a negative amount at
`gross = 200 ≥ 0`. -/
theorem C5_counterexample :
    (0 : ℚ) ≤ 200 ∧
    calculateTax 200 [TaxRule.mk 2 (some 100) (some 50) true] < 0 := by
  constructor
  · norm_num
  · norm_num [calculateTax, bracketTax, jsNonzero, min_def]

/-- C5 (amended): for `gross ≥ 0`, `calculateTax` is non-negative
provided every rule is well formed (rate ≥ 0 and, when its upper bound
applies, `threshold_max ≥ threshold_min`); it returns exactly 0 on the
empty rule list, and on the fetched rule set whenever no rule is active
(the page's query filters `is_active = true` before the engine runs). -/
theorem C5_nonneg_and_zero_on_empty (g : ℚ) (rules : List TaxRule)
    (hg : 0 ≤ g) (hwf : ∀ r ∈ rules, wellFormedRule r = true) :
    0 ≤ calculateTax g rules ∧
    calculateTax g ([] : List TaxRule) = 0 ∧
    ((∀ r ∈ rules, r.is_active = false) → calculateTax g (fetchTaxRules rules) = 0) := by
  refine ⟨calculateTax_nonneg g rules hwf, rfl, ?_⟩
  intro h
  have hnil : fetchTaxRules rules = [] := by
    rw [fetchTaxRules, List.filter_eq_nil_iff]
    intro r hr
    simp [h r hr]
  rw [hnil]
  rfl

theorem C5_nonneg_and_zero_on_empty_witness :
    (0 : ℚ) ≤ 5 ∧
    wellFormedRule (TaxRule.mk 1 (some 0) none false) = true ∧
    0 ≤ calculateTax 5 [TaxRule.mk 1 (some 0) none false] :=
  ⟨by decide, by decide,
    (C5_nonneg_and_zero_on_empty 5 [TaxRule.mk 1 (some 0) none false]
      (by decide) (by decide)).1⟩

/-- C6 counterexample: with only the hypothesis that rates are
non-negative, `calculateTax` is not monotone in the gross amount: the
malformed rule `{rate=10, min=100, max=50}` has non-negative rate, yet
the tax drops from 0 at `gross=100` to -5 at `gross=200`. -/
theorem C6_counterexample :
    0 ≤ (TaxRule.mk 10 (some 100) (some 50) true).rate ∧
    (0 : ℚ) ≤ 100 ∧ (100 : ℚ) ≤ 200 ∧
    ¬ calculateTax 100 [TaxRule.mk 10 (some 100) (some 50) true]
        ≤ calculateTax 200 [TaxRule.mk 10 (some 100) (some 50) true] := by
  refine ⟨by decide, by norm_num, by norm_num, ?_⟩
  norm_num [calculateTax, bracketTax, jsNonzero, min_def]

/-- C6 (amended): for a fixed rule list in which every rule is well
formed (non-negative rate and, when its upper bound applies,
`threshold_max ≥ threshold_min`), `calculateTax` is monotone:
`0 ≤ g1 ≤ g2` implies `calculateTax g1 ≤ calculateTax g2`. -/
theorem C6_monotone_wellformed (rules : List TaxRule) (g1 g2 : ℚ)
    (hwf : ∀ r ∈ rules, wellFormedRule r = true)
    (hg1 : 0 ≤ g1) (h12 : g1 ≤ g2) :
    calculateTax g1 rules ≤ calculateTax g2 rules :=
  calculateTax_mono g1 g2 rules hwf h12

theorem C6_monotone_wellformed_witness :
    wellFormedRule (TaxRule.mk 5 (some 0) (some 1000) true) = true ∧
    (0 : ℚ) ≤ 1 ∧ (1 : ℚ) ≤ 2 ∧
    calculateTax 1 [TaxRule.mk 5 (some 0) (some 1000) true]
      ≤ calculateTax 2 [TaxRule.mk 5 (some 0) (some 1000) true] :=
  ⟨by decide, by decide, by decide,
    C6_monotone_wellformed [TaxRule.mk 5 (some 0) (some 1000) true] 1 2
      (by decide) (by decide) (by decide)⟩

/-- C7: `calculateTax` is invariant under permutation of its rule list:
each rule's contribution depends only on the rule and the gross amount,
and the loop accumulates a sum, so any reordering yields the same
total. -/
theorem C7_perm_invariant (g : ℚ) (rules1 rules2 : List TaxRule)
    (hg : 0 ≤ g) (hperm : rules1.Perm rules2) :
    calculateTax g rules1 = calculateTax g rules2 := by
  rw [calculateTax_eq_sum, calculateTax_eq_sum]
  exact List.Perm.sum_eq (hperm.map (bracketTax g))

theorem C7_perm_invariant_witness :
    (0 : ℚ) ≤ 7 ∧
    ([TaxRule.mk 1 (some 0) (some 3) true, TaxRule.mk 2 (some 3) none true].Perm
      [TaxRule.mk 2 (some 3) none true, TaxRule.mk 1 (some 0) (some 3) true]) ∧
    calculateTax 7 [TaxRule.mk 1 (some 0) (some 3) true, TaxRule.mk 2 (some 3) none true]
      = calculateTax 7 [TaxRule.mk 2 (some 3) none true, TaxRule.mk 1 (some 0) (some 3) true] :=
  ⟨by decide, by decide,
    C7_perm_invariant 7
      [TaxRule.mk 1 (some 0) (some 3) true, TaxRule.mk 2 (some 3) none true]
      [TaxRule.mk 2 (some 3) none true, TaxRule.mk 1 (some 0) (some 3) true]
      (by decide) (by decide)⟩

/-- C9: a rule with `threshold_max = 0` is treated as unbounded above,
because `rule.threshold_max || Infinity` coerces the falsy value 0 to
`Infinity`: for `gross` above the lower threshold the bracket
contributes the full `(gross - threshold_min) * (rate / 100)` (the rate
factor the code applies), exactly as if `threshold_max` were absent,
never a zero-width contribution. -/
theorem C9_zero_threshold_max_unbounded (r : TaxRule) (g : ℚ)
    (hmax : r.threshold_max = some 0)
    (hmin : r.threshold_min.getD 0 < g) :
    bracketTax g r = (g - r.threshold_min.getD 0) * (r.rate / 100) ∧
    bracketTax g r = bracketTax g { r with threshold_max := none } ∧
    calculateTax g [r] = bracketTax g r := by
  have hj : jsNonzero r.threshold_max = none := by rw [hmax]; rfl
  have h1 : bracketTax g r = (g - r.threshold_min.getD 0) * (r.rate / 100) := by
    rw [bracketTax_pos_eq g r hmin]
    simp only [hj]
  have h2 : bracketTax g { r with threshold_max := none }
      = (g - r.threshold_min.getD 0) * (r.rate / 100) := by
    rw [bracketTax_pos_eq g { r with threshold_max := none } hmin]
    rfl
  exact ⟨h1, h1.trans h2.symm, by simp [calculateTax]⟩

theorem C9_zero_threshold_max_unbounded_witness :
    (TaxRule.mk 18 (some 1000) (some 0) true).threshold_max = some 0 ∧
    (TaxRule.mk 18 (some 1000) (some 0) true).threshold_min.getD 0 < (1500 : ℚ) ∧
    bracketTax 1500 (TaxRule.mk 18 (some 1000) (some 0) true)
      = (1500 - 1000) * (18 / 100) ∧
    bracketTax 1500 (TaxRule.mk 18 (some 1000) (some 0) true)
      = bracketTax 1500 (TaxRule.mk 18 (some 1000) none true) :=
  ⟨rfl, by decide,
    (C9_zero_threshold_max_unbounded (TaxRule.mk 18 (some 1000) (some 0) true) 1500
      rfl (by decide)).1,
    (C9_zero_threshold_max_unbounded (TaxRule.mk 18 (some 1000) (some 0) true) 1500
      rfl (by decide)).2.1⟩

/-- C2 counterexample: `onPayrollSubmit` does not fail on an inactive
employee and does produce a record: with the single loaded employee
inactive (`is_active = false`), submitting for that employee still
yields a payroll record. -/
theorem C2_counterexample :
    (Employee.mk "e1" 1000 none false).is_active = false ∧
    (onPayrollSubmit [Employee.mk "e1" 1000 none false] []
      (PayrollInput.mk "e1" "2024-01-01" "2024-01-31" 0 0 0 0)).isSome = true := by
  refine ⟨rfl, ?_⟩
  rw [onPayrollSubmit_found [Employee.mk "e1" 1000 none false] []
    (PayrollInput.mk "e1" "2024-01-01" "2024-01-31" 0 0 0 0)
    (Employee.mk "e1" 1000 none false) rfl]
  rfl

/-- C2 (amended): `onPayrollSubmit` performs no employee-state
validation and raises no error: whenever the submitted `employee_id`
matches an employee in the loaded list — active or not, whatever its
compensation fields — a payroll record is produced; when no employee
matches, the handler silently returns with no record (inactive employees
are excluded only from the form's dropdown, not checked here). -/
theorem C2_no_validation_in_submit (employees : List Employee)
    (rules : List TaxRule) (v : PayrollInput) :
    (∀ e, employees.find? (fun x => x.id == v.employee_id) = some e →
        (onPayrollSubmit employees rules v).isSome = true) ∧
    (employees.find? (fun x => x.id == v.employee_id) = none →
        onPayrollSubmit employees rules v = none) := by
  constructor
  · intro e hfind
    rw [onPayrollSubmit_found employees rules v e hfind]
    rfl
  · intro hfind
    exact onPayrollSubmit_not_found employees rules v hfind

theorem C2_no_validation_in_submit_witness :
    ([Employee.mk "e2" 1000 none false].find? (fun x => x.id == "e2")
        = some (Employee.mk "e2" 1000 none false)) ∧
    ((onPayrollSubmit [Employee.mk "e2" 1000 none false] []
        (PayrollInput.mk "e2" "a" "b" 1 0 0 0)).isSome = true) ∧
    ((onPayrollSubmit [Employee.mk "e2" 1000 none false] []
        (PayrollInput.mk "zz" "a" "b" 1 0 0 0)) = none) :=
  ⟨rfl,
    (C2_no_validation_in_submit [Employee.mk "e2" 1000 none false] []
        (PayrollInput.mk "e2" "a" "b" 1 0 0 0)).1
      (Employee.mk "e2" 1000 none false) rfl,
    (C2_no_validation_in_submit [Employee.mk "e2" 1000 none false] []
        (PayrollInput.mk "zz" "a" "b" 1 0 0 0)).2 rfl⟩

/-- C3 counterexample: the claim's hourly branch is keyed on
`hourly_rate` being *present*, but the code tests JavaScript truthiness:
for an employee with `hourly_rate = 0` (present) and `base_salary =
1000`, hours 10 and allowances 7, the claim's hourly formula gives
`10*0 + 0*0*1.5 + 7 = 7` while the code produces the salaried
`1000 + 7 = 1007`. -/
theorem C3_counterexample :
    (Employee.mk "e3" 1000 (some 0) true).hourly_rate = some 0 ∧
    ((onPayrollSubmit [Employee.mk "e3" 1000 (some 0) true] []
        (PayrollInput.mk "e3" "a" "b" 10 0 7 0)).map (fun r => r.gross_salary)
      = some 1007) ∧
    ((10 : ℚ) * 0 + 0 * 0 * 1.5 + 7 ≠ 1007) := by
  refine ⟨rfl, ?_, by norm_num⟩
  rw [onPayrollSubmit_found [Employee.mk "e3" 1000 (some 0) true] []
    (PayrollInput.mk "e3" "a" "b" 10 0 7 0)
    (Employee.mk "e3" 1000 (some 0) true) rfl]
  simp [grossFor, jsNonzero]
  norm_num

/-- C3 (amended): for every accepted submission, the produced
`gross_salary` is `hours_worked * hourly_rate + overtime_hours *
hourly_rate * 1.5 + allowances` when the employee's `hourly_rate` is
present *and non-zero*, and `base_salary + allowances` otherwise
(`hourly_rate` absent or equal to 0; hours are ignored then), and the
record's tax is computed on that allowance-inclusive gross. -/
theorem C3_gross_formula (employees : List Employee) (rules : List TaxRule)
    (v : PayrollInput) (e : Employee) (r : PayrollRecord)
    (hfind : employees.find? (fun x => x.id == v.employee_id) = some e)
    (hsub : onPayrollSubmit employees rules v = some r) :
    (∀ hr, e.hourly_rate = some hr → hr ≠ 0 →
        r.gross_salary = v.hours_worked * hr + v.overtime_hours * hr * 1.5 + v.allowances) ∧
    ((e.hourly_rate = none ∨ e.hourly_rate = some 0) →
        r.gross_salary = e.base_salary + v.allowances) ∧
    r.tax_deductions = calculateTax r.gross_salary rules := by
  rw [onPayrollSubmit_found employees rules v e hfind] at hsub
  injection hsub with hsub
  subst hsub
  refine ⟨?_, ?_, rfl⟩
  · intro hr hhr hne
    exact grossFor_hourly e v hr hhr hne
  · intro hcase
    apply grossFor_salaried e v
    rcases hcase with h | h <;> rw [h] <;> rfl

theorem C3_gross_formula_witness :
    ((Employee.mk "e4" 77 (some 20) true).hourly_rate = some 20) ∧
    ((20 : ℚ) ≠ 0) ∧
    (onPayrollSubmit [Employee.mk "e4" 77 (some 20) true] []
        (PayrollInput.mk "e4" "a" "b" 1 0 0 0)
      = some (PayrollRecord.mk "e4" "a" "b" 1 0 20 0 0 0 20)) ∧
    ((PayrollRecord.mk "e4" "a" "b" 1 0 20 0 0 0 20).gross_salary
      = (1 : ℚ) * 20 + 0 * 20 * 1.5 + 0) :=
  ⟨rfl, by decide,
    by simp [onPayrollSubmit, jsNonzero, calculateTax],
    (C3_gross_formula [Employee.mk "e4" 77 (some 20) true] []
        (PayrollInput.mk "e4" "a" "b" 1 0 0 0)
        (Employee.mk "e4" 77 (some 20) true)
        (PayrollRecord.mk "e4" "a" "b" 1 0 20 0 0 0 20)
        rfl
        (by simp [onPayrollSubmit, jsNonzero, calculateTax])).1
      20 rfl (by decide)⟩

/-- C4: every record produced by `onPayrollSubmit` satisfies the net
identity exactly (`net_salary = gross_salary - tax_deductions -
deductions` in exact rational arithmetic), and its `tax_deductions`,
`deductions` and `allowances` fields are the computed tax, the input
deductions and the input allowances. -/
theorem C4_net_identity (employees : List Employee) (rules : List TaxRule)
    (v : PayrollInput) (r : PayrollRecord)
    (hsub : onPayrollSubmit employees rules v = some r) :
    r.net_salary = r.gross_salary - r.tax_deductions - r.deductions ∧
    r.tax_deductions = calculateTax r.gross_salary rules ∧
    r.deductions = v.deductions ∧
    r.allowances = v.allowances := by
  cases hfind : employees.find? (fun x => x.id == v.employee_id) with
  | none =>
    rw [onPayrollSubmit_not_found employees rules v hfind] at hsub
    exact absurd hsub (by simp)
  | some e =>
    rw [onPayrollSubmit_found employees rules v e hfind] at hsub
    injection hsub with hsub
    subst hsub
    exact ⟨rfl, rfl, rfl, rfl⟩

theorem C4_net_identity_witness :
    (onPayrollSubmit [Employee.mk "e5" 1000 none true] []
        (PayrollInput.mk "e5" "a" "b" 0 0 0 0)
      = some (PayrollRecord.mk "e5" "a" "b" 0 0 1000 0 0 0 1000)) ∧
    ((PayrollRecord.mk "e5" "a" "b" 0 0 1000 0 0 0 1000).net_salary
      = (PayrollRecord.mk "e5" "a" "b" 0 0 1000 0 0 0 1000).gross_salary
        - (PayrollRecord.mk "e5" "a" "b" 0 0 1000 0 0 0 1000).tax_deductions
        - (PayrollRecord.mk "e5" "a" "b" 0 0 1000 0 0 0 1000).deductions) :=
  ⟨by simp [onPayrollSubmit, jsNonzero, calculateTax],
    (C4_net_identity [Employee.mk "e5" 1000 none true] []
        (PayrollInput.mk "e5" "a" "b" 0 0 0 0)
        (PayrollRecord.mk "e5" "a" "b" 0 0 1000 0 0 0 1000)
        (by simp [onPayrollSubmit, jsNonzero, calculateTax])).1⟩

/-- C8 counterexample: negative hours are not rejected anywhere.
`payrollSchema` only requires `hours_worked` to be a non-empty string, so
the form value "-5" passes validation, and `onPayrollSubmit` then
produces a payroll record with `hours_worked = -5` (and a negative gross)
instead of failing. -/
theorem C8_counterexample :
    payrollSchemaAccepts
      (PayrollFormValues.mk "e8" "2024-01-01" "2024-01-31" "-5"
        (some "0") (some "0") (some "0")) = true ∧
    ((-5 : ℚ) < 0) ∧
    onPayrollSubmit [Employee.mk "e8" 3000 (some 20) true] []
        (PayrollInput.mk "e8" "2024-01-01" "2024-01-31" (-5) 0 0 0)
      = some (PayrollRecord.mk "e8" "2024-01-01" "2024-01-31" (-5) 0 (-100) 0 0 0 (-100)) := by
  refine ⟨by decide, by norm_num, ?_⟩
  rw [onPayrollSubmit_found [Employee.mk "e8" 3000 (some 20) true] []
    (PayrollInput.mk "e8" "2024-01-01" "2024-01-31" (-5) 0 0 0)
    (Employee.mk "e8" 3000 (some 20) true) rfl]
  simp [grossFor, jsNonzero, calculateTax]
  norm_num

/-- C8 (amended): neither `payrollSchema` nor `onPayrollSubmit` checks
the sign of the hours: for any submission whose `employee_id` matches a
loaded employee, even with `hours_worked < 0` or `overtime_hours < 0`, a
payroll record is produced and it carries the negative hours through
unchanged — no failure occurs and no computation is prevented. -/
theorem C8_negative_hours_accepted (employees : List Employee)
    (rules : List TaxRule) (v : PayrollInput) (e : Employee)
    (hfind : employees.find? (fun x => x.id == v.employee_id) = some e)
    (hneg : v.hours_worked < 0 ∨ v.overtime_hours < 0) :
    (onPayrollSubmit employees rules v).isSome = true ∧
    (onPayrollSubmit employees rules v).map (fun r => r.hours_worked)
      = some v.hours_worked ∧
    (onPayrollSubmit employees rules v).map (fun r => r.overtime_hours)
      = some v.overtime_hours := by
  rw [onPayrollSubmit_found employees rules v e hfind]
  exact ⟨rfl, rfl, rfl⟩

theorem C8_negative_hours_accepted_witness :
    ([Employee.mk "e9" 3000 (some 20) true].find? (fun x => x.id == "e9")
      = some (Employee.mk "e9" 3000 (some 20) true)) ∧
    ((-1 : ℚ) < 0 ∨ (0 : ℚ) < 0) ∧
    (onPayrollSubmit [Employee.mk "e9" 3000 (some 20) true] []
        (PayrollInput.mk "e9" "a" "b" (-1) 0 0 0)).isSome = true :=
  ⟨rfl, by decide,
    (C8_negative_hours_accepted [Employee.mk "e9" 3000 (some 20) true] []
        (PayrollInput.mk "e9" "a" "b" (-1) 0 0 0)
        (Employee.mk "e9" 3000 (some 20) true) rfl (by decide)).1⟩

/-- C10: an employee whose `hourly_rate` is present but equal to 0 is
treated as salaried, because `if (employee.hourly_rate)` is falsy at 0:
the produced gross is `base_salary + allowances`, and two submissions
that differ only in `hours_worked`/`overtime_hours` (same employee,
allowances and deductions) produce the same gross, tax and net. -/
theorem C10_zero_hourly_rate_salaried (employees : List Employee)
    (rules : List TaxRule) (v1 v2 : PayrollInput) (e : Employee)
    (r1 r2 : PayrollRecord)
    (hfind : employees.find? (fun x => x.id == v1.employee_id) = some e)
    (hzero : e.hourly_rate = some 0)
    (hid : v2.employee_id = v1.employee_id)
    (hallow : v2.allowances = v1.allowances)
    (hded : v2.deductions = v1.deductions)
    (h1 : onPayrollSubmit employees rules v1 = some r1)
    (h2 : onPayrollSubmit employees rules v2 = some r2) :
    r1.gross_salary = e.base_salary + v1.allowances ∧
    r2.gross_salary = r1.gross_salary ∧
    r2.tax_deductions = r1.tax_deductions ∧
    r2.net_salary = r1.net_salary := by
  have hfind2 : employees.find? (fun x => x.id == v2.employee_id) = some e := by
    rw [hid]; exact hfind
  have hjz : jsNonzero e.hourly_rate = none := by rw [hzero]; rfl
  rw [onPayrollSubmit_found employees rules v1 e hfind] at h1
  rw [onPayrollSubmit_found employees rules v2 e hfind2] at h2
  injection h1 with h1
  injection h2 with h2
  subst h1
  subst h2
  have hgr : grossFor e v2 = grossFor e v1 := by
    rw [grossFor_salaried e v2 hjz, grossFor_salaried e v1 hjz, hallow]
  exact ⟨grossFor_salaried e v1 hjz, hgr, by rw [hgr], by rw [hgr, hded]⟩

theorem C10_zero_hourly_rate_salaried_witness :
    ((Employee.mk "eA" 555 (some 0) true).hourly_rate = some 0) ∧
    ((PayrollInput.mk "eA" "a" "b" 1 0 0 0).hours_worked
      ≠ (PayrollInput.mk "eA" "a" "b" 9 2 0 0).hours_worked) ∧
    ((PayrollRecord.mk "eA" "a" "b" 1 0 555 0 0 0 555).gross_salary
      = (Employee.mk "eA" 555 (some 0) true).base_salary
        + (PayrollInput.mk "eA" "a" "b" 1 0 0 0).allowances) ∧
    ((PayrollRecord.mk "eA" "a" "b" 9 2 555 0 0 0 555).net_salary
      = (PayrollRecord.mk "eA" "a" "b" 1 0 555 0 0 0 555).net_salary) :=
  ⟨rfl, by decide,
    (C10_zero_hourly_rate_salaried [Employee.mk "eA" 555 (some 0) true] []
        (PayrollInput.mk "eA" "a" "b" 1 0 0 0) (PayrollInput.mk "eA" "a" "b" 9 2 0 0)
        (Employee.mk "eA" 555 (some 0) true)
        (PayrollRecord.mk "eA" "a" "b" 1 0 555 0 0 0 555)
        (PayrollRecord.mk "eA" "a" "b" 9 2 555 0 0 0 555)
        rfl rfl rfl rfl rfl
        (by simp [onPayrollSubmit, jsNonzero, calculateTax])
        (by simp [onPayrollSubmit, jsNonzero, calculateTax])).1,
    (C10_zero_hourly_rate_salaried [Employee.mk "eA" 555 (some 0) true] []
        (PayrollInput.mk "eA" "a" "b" 1 0 0 0) (PayrollInput.mk "eA" "a" "b" 9 2 0 0)
        (Employee.mk "eA" 555 (some 0) true)
        (PayrollRecord.mk "eA" "a" "b" 1 0 555 0 0 0 555)
        (PayrollRecord.mk "eA" "a" "b" 9 2 555 0 0 0 555)
        rfl rfl rfl rfl rfl
        (by simp [onPayrollSubmit, jsNonzero, calculateTax])
        (by simp [onPayrollSubmit, jsNonzero, calculateTax])).2.2.2⟩
